import Mathlib

/-!
Shallow embedding of the poll access-control and vote-integrity core of the
alx-polly repository (src/app/lib/actions/poll-actions.ts and the parallel
HTTP route handlers under src/app/api).  Callers are `Option User` (`none`
is an anonymous / unauthenticated session), the record store is a `State`
holding the `polls` and `votes` tables, and each server action becomes a
pure function from inputs and the current state to a result and the next
state.  Store-assigned fields (fresh row ids, creation timestamps) are
extra parameters.  JavaScript strings are modelled as `String` (`.trim()`
as the structurally recursive `jsTrim` below, `.length` as
`String.length`; the inputs in question are ASCII so UTF-16 unit counts
and codepoint counts agree), and the JS `number` used for `optionIndex`
is modelled as `Int` because it can be negative.  Store calls are assumed to succeed except where an operation's
error-mapping on store failure is itself under study (`getUserPolls`,
which takes the store reply as an `Except` parameter).
-/

set_option maxRecDepth 8000

/-- Model of JavaScript `String.prototype.trim`: strip leading and
trailing whitespace (for the ASCII inputs considered here the JS and Lean
whitespace classes agree). -/
def jsTrim (s : String) : String :=
  String.mk (((s.data.dropWhile Char.isWhitespace).reverse.dropWhile Char.isWhitespace).reverse)

/-- Authenticated identity as returned by `supabase.auth.getUser()`:
a stable id and the contact email used by the admin allow-list check. -/
structure User where
  id : String
  email : String
deriving DecidableEq

/-- Row of the `polls` table. -/
structure Poll where
  id : String
  user_id : String
  question : String
  options : List String
  created_at : Nat
deriving DecidableEq

/-- Row of the `votes` table; `user_id` is `none` for an anonymous vote. -/
structure Vote where
  id : String
  poll_id : String
  user_id : Option String
  option_index : Int
deriving DecidableEq

/-- The record store: the two tables the poll core touches. -/
structure State where
  polls : List Poll
  votes : List Vote
deriving DecidableEq

/-- Supabase `.single()`: yields the row when the filtered result set has
exactly one row, and an error (here `none`) when it has zero or several. -/
def singleRow {α : Type} : List α → Option α
  | [a] => some a
  | _ => none

/-- The query `from("polls").select(...).eq("id", pid).single()`. -/
def findPollRow (st : State) (pid : String) : Option Poll :=
  singleRow (st.polls.filter (fun p => p.id == pid))

/-- The query `from("votes").select("id").eq("poll_id", pid).eq("user_id", uid).single()`
used by the duplicate-vote check; the SQL `eq` on a nullable column only
matches non-null values equal to `uid`. -/
def findUserVoteRow (st : State) (pid : String) (uid : String) : Option Vote :=
  singleRow (st.votes.filter (fun v => v.poll_id == pid && v.user_id == some uid))

/-- Hard-coded admin allow-list from `isUserAdmin` (poll-actions.ts line 32). -/
def adminEmails : List String := ["admin@alxpolly.com", "root@alxpolly.com"]

/-- Embedding of `isUserAdmin`: membership of the session user's email in
the allow-list (the `userId` argument of the source function is unused). -/
def isUserAdmin (u : User) : Bool := adminEmails.contains u.email

/-- Embedding of `options = formData.getAll("options").filter(Boolean)`:
JavaScript `Boolean` is false exactly on the empty string, so the filter
drops empty-string entries and keeps everything else (including
whitespace-only strings, which are truthy). -/
def filterBoolean (rawOptions : List String) : List String :=
  rawOptions.filter (fun o => o != "")

/-- Per-option validation loop shared by `createPoll` and `updatePoll`
(poll-actions.ts lines 187-194 and 518-525): first violation wins. -/
def validateOptions : List String → Option String
  | [] => none
  | o :: rest =>
    if o = "" ∨ (jsTrim o).length = 0 then some "All options must have text."
    else if o.length > 200 then some "Options must be less than 200 characters."
    else validateOptions rest

/-- The input-validation prefix shared verbatim by `createPoll` and
`updatePoll` (poll-actions.ts lines 173-194 / 504-525), applied to the
already-`filter(Boolean)`ed options.  Note the length bounds are checked on
the raw (untrimmed) strings; only emptiness is checked after trimming. -/
def validatePoll (question : String) (options : List String) : Option String :=
  if question = "" ∨ (jsTrim question).length = 0 then some "Question is required."
  else if question.length > 500 then some "Question must be less than 500 characters."
  else if options.length < 2 then some "Please provide at least two options."
  else if options.length > 10 then some "Maximum 10 options allowed."
  else validateOptions options

/-- Embedding of `createPoll` (poll-actions.ts lines 165-224): filter the
submitted options, validate, authenticate, then insert a row with the
trimmed question and trimmed options; `newId` and `now` stand for the
store-assigned row id and `created_at`. -/
def createPoll (caller : Option User) (question : String) (rawOptions : List String)
    (newId : String) (now : Nat) (st : State) : Option String × State :=
  let options := filterBoolean rawOptions
  match validatePoll question options with
  | some e => (some e, st)
  | none =>
    match caller with
    | none => (some "You must be logged in to create a poll.", st)
    | some u =>
      (none, { st with polls := st.polls ++
        [{ id := newId, user_id := u.id, question := jsTrim question,
           options := options.map (fun o => jsTrim o), created_at := now }] })

/-- Embedding of `getUserPolls` (poll-actions.ts lines 247-265).  The
store's reply to the ownership-filtered query is passed in as an `Except`
whose error carries the store error's own `message`; on store failure the
source returns `error.message` to the caller unchanged. -/
def getUserPolls (caller : Option User) (queryResult : Except String (List Poll)) :
    List Poll × Option String :=
  match caller with
  | none => ([], some "Not authenticated")
  | some _ =>
    match queryResult with
    | Except.error e => ([], some e)
    | Except.ok rows => (rows, none)

/-- The expression `user?.id === data.user_id` computing `canEdit` in
`getPollById`: false for an anonymous caller. -/
def canEditOf (caller : Option User) (p : Poll) : Bool :=
  match caller with
  | some u => u.id == p.user_id
  | none => false

/-- Result shape of `getPollById`: `canEdit` is absent on the error path
(the source returns only `poll` and `error` there). -/
structure PollViewResult where
  poll : Option Poll
  error : Option String
  canEdit : Option Bool
deriving DecidableEq

/-- Embedding of `getPollById` (poll-actions.ts lines 293-317): fetch by id
with no ownership restriction; compute `canEdit` from the session user. -/
def getPollById (caller : Option User) (id : String) (st : State) : PollViewResult :=
  match findPollRow st id with
  | none => { poll := none, error := some "Poll not found.", canEdit := none }
  | some p => { poll := some p, error := none, canEdit := some (canEditOf caller p) }

/-- Embedding of `submitVote` (poll-actions.ts lines 349-403): input
validation (`!pollId || typeof optionIndex !== 'number' || optionIndex < 0`;
the typeof test is always true here), poll fetch, bounds check, duplicate
check for authenticated callers only, then insert with `user_id` null for
anonymous callers. -/
def submitVote (caller : Option User) (pollId : String) (optionIndex : Int)
    (newVoteId : String) (st : State) : Option String × State :=
  if pollId = "" ∨ optionIndex < 0 then (some "Invalid vote data.", st)
  else
    match findPollRow st pollId with
    | none => (some "Poll not found.", st)
    | some poll =>
      if (poll.options.length : Int) ≤ optionIndex then (some "Invalid option selected.", st)
      else
        let alreadyVoted :=
          match caller with
          | some u => (findUserVoteRow st pollId u.id).isSome
          | none => false
        if alreadyVoted then (some "You have already voted on this poll.", st)
        else
          (none, { st with votes := st.votes ++
            [{ id := newVoteId, poll_id := pollId,
               user_id := caller.map (fun u => u.id), option_index := optionIndex }] })

/-- Embedding of the non-admin `deletePoll` (poll-actions.ts lines 430-458):
authenticate, then `delete().eq("id", id).eq("user_id", user.id)`.  A SQL
delete whose filter matches zero rows is not an error, so the result error
is `none` whether or not anything was removed. -/
def deletePoll (caller : Option User) (id : String) (st : State) : Option String × State :=
  match caller with
  | none => (some "You must be logged in to delete a poll.", st)
  | some u =>
    (none, { st with polls := st.polls.filter (fun p => !(p.id == id && p.user_id == u.id)) })

/-- Embedding of `updatePoll` (poll-actions.ts lines 496-570): validate,
authenticate, fetch the poll's `user_id` by id, reject non-owners, then
update with the ownership filter repeated in the write predicate. -/
def updatePoll (caller : Option User) (pollId : String) (question : String)
    (rawOptions : List String) (st : State) : Option String × State :=
  let options := filterBoolean rawOptions
  match validatePoll question options with
  | some e => (some e, st)
  | none =>
    match caller with
    | none => (some "You must be logged in to update a poll.", st)
    | some u =>
      match findPollRow st pollId with
      | none => (some "Poll not found.", st)
      | some existingPoll =>
        if existingPoll.user_id ≠ u.id then (some "You can only edit your own polls.", st)
        else
          (none, { st with polls := st.polls.map (fun p =>
            if p.id == pollId && p.user_id == u.id then
              { p with question := jsTrim question,
                       options := options.map (fun o => jsTrim o) }
            else p) })

/-- Descending `created_at` order requested by
`.order("created_at", { ascending: false })`. -/
def createdDesc (a b : Poll) : Prop := b.created_at ≤ a.created_at

instance : DecidableRel createdDesc := fun a b => Nat.decLe b.created_at a.created_at

instance : IsTotal Poll createdDesc := ⟨fun a b => Nat.le_total b.created_at a.created_at⟩

instance : IsTrans Poll createdDesc := ⟨fun _ _ _ h1 h2 => Nat.le_trans h2 h1⟩

/-- Embedding of the admin `getAllPolls` (poll-actions.ts lines 58-84):
authenticate, check the allow-list, then return every poll ordered by
`created_at` descending (the store's ORDER BY is modelled as a stable
sort). -/
def getAllPolls (caller : Option User) (st : State) : List Poll × Option String :=
  match caller with
  | none => ([], some "Authentication required.")
  | some u =>
    if isUserAdmin u then (List.insertionSort createdDesc st.polls, none)
    else ([], some "Admin access required.")

/-- Store invariants guaranteed by the schema: `polls.id` is a primary key
(unique, and store-assigned ids are never the empty string), and the
uniqueness constraint on `(poll_id, user_id)` admits at most one
authenticated vote per user per poll. -/
def WF (st : State) : Prop :=
  (st.polls.map (fun p => p.id)).Nodup ∧
  (∀ p ∈ st.polls, p.id ≠ "") ∧
  st.votes.Pairwise (fun v w => ¬(v.poll_id = w.poll_id ∧ v.user_id = w.user_id ∧ v.user_id ≠ none))

instance (st : State) : Decidable (WF st) := by
  unfold WF
  infer_instance

/-!
Helper lemmas about single-row queries under the store invariants.
-/

/-- Under a pairwise at-most-one-match guarantee, filtering by `P` around a
known matching element yields exactly that element. -/
theorem filter_eq_single_of_pairwise {α : Type} (P : α → Bool) :
    ∀ (l : List α) (v : α), v ∈ l → P v = true →
      l.Pairwise (fun a b => ¬(P a = true ∧ P b = true)) →
      l.filter P = [v]
  | a :: rest, v, hv, hPv, hpw => by
    rcases List.pairwise_cons.mp hpw with ⟨ha, hrest⟩
    rcases List.mem_cons.mp hv with h | hv'
    · subst h
      rw [List.filter_cons_of_pos hPv,
        List.filter_eq_nil_iff.mpr (fun b hb hPb => ha b hb ⟨hPv, hPb⟩)]
    · have hPa : ¬P a = true := fun h => ha v hv' ⟨h, hPv⟩
      rw [List.filter_cons_of_neg hPa]
      exact filter_eq_single_of_pairwise P rest v hv' hPv hrest

/-- Distinct poll ids make the id filter functions pairwise exclusive. -/
theorem polls_pairwise_id (polls : List Poll) (pid : String)
    (hnd : (polls.map (fun p => p.id)).Nodup) :
    polls.Pairwise (fun a b => ¬((a.id == pid) = true ∧ (b.id == pid) = true)) := by
  have h := List.pairwise_map.mp hnd
  exact h.imp (fun hab ⟨ha, hb⟩ => hab ((eq_of_beq ha).trans (eq_of_beq hb).symm))

/-- With the primary-key invariant, fetching a stored poll by its id
returns exactly that poll. -/
theorem findPollRow_eq_some (st : State) (p : Poll)
    (hnd : (st.polls.map (fun q => q.id)).Nodup) (hp : p ∈ st.polls) :
    findPollRow st p.id = some p := by
  unfold findPollRow
  rw [filter_eq_single_of_pairwise _ st.polls p hp (by simp) (polls_pairwise_id _ _ hnd)]
  rfl

/-- Fetching an id held by no stored poll returns no row. -/
theorem findPollRow_eq_none (st : State) (pid : String)
    (h : ∀ p ∈ st.polls, p.id ≠ pid) : findPollRow st pid = none := by
  unfold findPollRow
  rw [List.filter_eq_nil_iff.mpr (fun p hp hbeq => h p hp (eq_of_beq hbeq))]
  rfl

/-- Under the vote uniqueness constraint, the duplicate-vote query finds
exactly the one existing authenticated vote. -/
theorem findUserVoteRow_eq_some (st : State) (v : Vote) (pid : String) (uid : String)
    (hpw : st.votes.Pairwise
      (fun a b => ¬(a.poll_id = b.poll_id ∧ a.user_id = b.user_id ∧ a.user_id ≠ none)))
    (hv : v ∈ st.votes) (hpid : v.poll_id = pid) (huid : v.user_id = some uid) :
    findUserVoteRow st pid uid = some v := by
  unfold findUserVoteRow
  rw [filter_eq_single_of_pairwise _ st.votes v hv (by simp [hpid, huid])
    (hpw.imp (fun {a b} hab ⟨ha, hb⟩ => by
      simp only [Bool.and_eq_true, beq_iff_eq] at ha hb
      exact hab ⟨ha.1.trans hb.1.symm, ha.2.trans hb.2.symm, by simp [ha.2]⟩))]
  rfl

/-!
Lemmas about the shared validation prefix.
-/

/-- A trim-nonempty string is not the empty string. -/
theorem ne_empty_of_trim (o : String) (h : 1 ≤ (jsTrim o).length) : o ≠ "" := by
  intro he
  subst he
  exact absurd h (by decide)

/-- Options that are nonempty after trimming and at most 200 raw characters
pass the per-option loop. -/
theorem validateOptions_eq_none (opts : List String)
    (h : ∀ o ∈ opts, 1 ≤ (jsTrim o).length ∧ o.length ≤ 200) :
    validateOptions opts = none := by
  induction opts with
  | nil => rfl
  | cons o rest ih =>
    obtain ⟨ho1, ho2⟩ := h o (List.mem_cons_self o rest)
    have hne : ¬(o = "" ∨ (jsTrim o).length = 0) := by
      rintro (rfl | hz)
      · exact absurd ho1 (by decide)
      · omega
    unfold validateOptions
    rw [if_neg hne, if_neg (by omega)]
    exact ih (fun o' ho' => h o' (List.mem_cons_of_mem o ho'))

/-- A raw option longer than 200 characters never survives the per-option
loop: some violation (not necessarily this one) is reported. -/
theorem validateOptions_isSome_of_long (opts : List String) (o : String)
    (ho : o ∈ opts) (hlen : o.length > 200) : (validateOptions opts).isSome = true := by
  induction opts with
  | nil => cases ho
  | cons a rest ih =>
    unfold validateOptions
    by_cases h1 : a = "" ∨ (jsTrim a).length = 0
    · rw [if_pos h1]; rfl
    · rw [if_neg h1]
      by_cases h2 : a.length > 200
      · rw [if_pos h2]; rfl
      · rw [if_neg h2]
        rcases List.mem_cons.mp ho with h | h
        · subst h; omega
        · exact ih h

/-- When every submitted option is nonempty after trimming, the
`filter(Boolean)` step keeps the list intact. -/
theorem filterBoolean_eq_self (opts : List String)
    (h : ∀ o ∈ opts, 1 ≤ (jsTrim o).length) : filterBoolean opts = opts := by
  unfold filterBoolean
  exact List.filter_eq_self.mpr
    (fun o ho => by simpa using ne_empty_of_trim o (h o ho))

/-- Dropping empty strings is idempotent. -/
theorem filterBoolean_idem (opts : List String) :
    filterBoolean (filterBoolean opts) = filterBoolean opts := by
  unfold filterBoolean
  exact List.filter_eq_self.mpr (fun o ho => (List.mem_filter.mp ho).2)

/-- Valid inputs (question nonempty after trimming and at most 500 raw
characters; 2 to 10 options, each nonempty after trimming and at most 200
raw characters) pass the whole validation prefix. -/
theorem validatePoll_eq_none (question : String) (options : List String)
    (hq1 : 1 ≤ (jsTrim question).length) (hq2 : question.length ≤ 500)
    (hc1 : 2 ≤ options.length) (hc2 : options.length ≤ 10)
    (ho : ∀ o ∈ options, 1 ≤ (jsTrim o).length ∧ o.length ≤ 200) :
    validatePoll question options = none := by
  have hne : ¬(question = "" ∨ (jsTrim question).length = 0) := by
    rintro (rfl | hz)
    · exact absurd hq1 (by decide)
    · omega
  unfold validatePoll
  rw [if_neg hne, if_neg (by omega), if_neg (by omega), if_neg (by omega)]
  exact validateOptions_eq_none options ho

/-- When validation fails, `createPoll` reports exactly the validation
error and the store is untouched. -/
theorem createPoll_validation_error (caller : Option User) (question : String)
    (rawOptions : List String) (newId : String) (now : Nat) (st : State) (e : String)
    (h : validatePoll question (filterBoolean rawOptions) = some e) :
    createPoll caller question rawOptions newId now st = (some e, st) := by
  unfold createPoll
  simp only [h]

/-- When validation fails, `updatePoll` reports exactly the validation
error and the store is untouched. -/
theorem updatePoll_validation_error (caller : Option User) (pollId : String)
    (question : String) (rawOptions : List String) (st : State) (e : String)
    (h : validatePoll question (filterBoolean rawOptions) = some e) :
    updatePoll caller pollId question rawOptions st = (some e, st) := by
  unfold updatePoll
  simp only [h]

/-!
Concrete fixtures used by witnesses and counterexamples.
-/

/-- Sample authenticated user owning `pollOne`. -/
def alice : User := { id := "alice", email := "alice@example.com" }

/-- Sample authenticated user who owns no poll in `st0` and is not in the
admin allow-list. -/
def bob : User := { id := "bob", email := "bob@example.com" }

/-- Sample user whose email is in the admin allow-list. -/
def adminUser : User := { id := "adm", email := "admin@alxpolly.com" }

/-- Sample poll owned by `alice`. -/
def pollOne : Poll :=
  { id := "p1", user_id := "alice", question := "Favorite color?",
    options := ["Red", "Blue"], created_at := 10 }

/-- Sample poll owned by `bob`. -/
def pollTwo : Poll :=
  { id := "p2", user_id := "bob", question := "Best pet?",
    options := ["Cat", "Dog"], created_at := 20 }

/-- Sample store with two polls and no votes. -/
def st0 : State := { polls := [pollOne, pollTwo], votes := [] }

/-- An existing authenticated vote by `bob` on `pollOne`. -/
def voteByBob : Vote := { id := "v1", poll_id := "p1", user_id := some "bob", option_index := 0 }

/-- An existing anonymous vote on `pollOne`. -/
def anonVote : Vote := { id := "v2", poll_id := "p1", user_id := none, option_index := 1 }

/-- Sample store that already holds one authenticated and one anonymous
vote on `pollOne`. -/
def stVotes : State := { polls := [pollOne, pollTwo], votes := [voteByBob, anonVote] }

/-!
Claim theorems.
-/

/-- Claim C2 (code side): when the store query inside `getUserPolls` fails,
the error value handed back to the caller is the underlying store error's
own message text, not a fixed generic message — refuting the no-leak
property for this operation. -/
theorem C2_getUserPolls_leaks_store_message (u : User) (msg : String) :
    getUserPolls (some u) (Except.error msg) = ([], some msg) := rfl

/-- Claim C9: `createPoll` and `updatePoll` behave on any submitted options
list exactly as on the list with its empty-string entries dropped (so all
validation, including the count bounds, sees the filtered list), and the
concrete list ["A", "", "B"] is accepted as the two-entry list ["A", "B"]
rather than rejected with the all-options-must-have-text error. -/
theorem C9_empty_options_dropped (caller : Option User) (pollId : String)
    (question : String) (rawOptions : List String) (newId : String) (now : Nat)
    (st : State) :
    createPoll caller question rawOptions newId now st =
      createPoll caller question (rawOptions.filter (fun o => o != "")) newId now st ∧
    updatePoll caller pollId question rawOptions st =
      updatePoll caller pollId question (rawOptions.filter (fun o => o != "")) st ∧
    createPoll (some alice) "Q?" ["A", "", "B"] "p9" 5 st0 =
      (none, { st0 with polls := st0.polls ++
        [{ id := "p9", user_id := "alice", question := "Q?",
           options := ["A", "B"], created_at := 5 }] }) := by
  refine ⟨?_, ?_, by decide⟩
  · unfold createPoll
    rw [show filterBoolean (rawOptions.filter (fun o => o != "")) = filterBoolean rawOptions
      from filterBoolean_idem rawOptions]
  · unfold updatePoll
    rw [show filterBoolean (rawOptions.filter (fun o => o != "")) = filterBoolean rawOptions
      from filterBoolean_idem rawOptions]

/-- Claim C10: for an authenticated caller and a pollId matching no stored
poll, the non-admin `deletePoll` reports success (a null error) rather
than NotFound, and the store is unchanged: a zero-row ownership-filtered
delete is not an error. -/
theorem C10_delete_missing_poll_succeeds (st : State) (u : User) (pid : String)
    (h : ∀ p ∈ st.polls, p.id ≠ pid) :
    deletePoll (some u) pid st = (none, st) := by
  show (none, { st with
    polls := st.polls.filter (fun p => !(p.id == pid && p.user_id == u.id)) }) = (none, st)
  rw [List.filter_eq_self.mpr (fun p hp => by simp [h p hp])]

/-- Claim C10 witness: deleting a pollId absent from the sample store
succeeds and changes nothing. -/
theorem C10_delete_missing_poll_succeeds_witness :
    deletePoll (some bob) "ghost" st0 = (none, st0) :=
  C10_delete_missing_poll_succeeds st0 bob "ghost" (by decide)

/-- Claim C7: `getAllPolls` (the admin listing) fails with the
admin-access Forbidden error and returns no polls for any authenticated
caller whose email is outside the allow-list, and for any caller on the
allow-list it succeeds, returning a permutation of every stored poll that
is sorted by `created_at` descending. -/
theorem C7_listAllPolls_admin_gate (st : State) (u : User) :
    (u.email ∉ adminEmails →
      getAllPolls (some u) st = ([], some "Admin access required.")) ∧
    (u.email ∈ adminEmails →
      (getAllPolls (some u) st).2 = none ∧
      (getAllPolls (some u) st).1.Perm st.polls ∧
      (getAllPolls (some u) st).1.Sorted createdDesc) := by
  constructor
  · intro h
    have hadm : isUserAdmin u = false := by
      unfold isUserAdmin
      simpa using h
    show (if isUserAdmin u then (List.insertionSort createdDesc st.polls, none)
      else ([], some "Admin access required.")) = ([], some "Admin access required.")
    rw [hadm]
    rfl
  · intro h
    have hadm : isUserAdmin u = true := by
      unfold isUserAdmin
      simpa using h
    have hres : getAllPolls (some u) st = (List.insertionSort createdDesc st.polls, none) := by
      show (if isUserAdmin u then (List.insertionSort createdDesc st.polls, none)
        else ([], some "Admin access required.")) = _
      rw [hadm]
      rfl
    refine ⟨by rw [hres], by rw [hres]; exact List.perm_insertionSort createdDesc st.polls,
      by rw [hres]; exact List.sorted_insertionSort createdDesc st.polls⟩

/-- Claim C7 witness: on the sample store, `bob` (not on the allow-list)
is refused, while `adminUser` receives both polls, newest first, with no
error. -/
theorem C7_listAllPolls_admin_gate_witness :
    getAllPolls (some bob) st0 = ([], some "Admin access required.") ∧
    (getAllPolls (some adminUser) st0).2 = none ∧
    (getAllPolls (some adminUser) st0).1.Perm st0.polls ∧
    (getAllPolls (some adminUser) st0).1.Sorted createdDesc :=
  ⟨(C7_listAllPolls_admin_gate st0 bob).1 (by decide),
   (C7_listAllPolls_admin_gate st0 adminUser).2 (by decide)⟩

/-- Claim C8: any caller, including an anonymous one, can fetch any stored
poll; the computed `canEdit` flag is true exactly when the caller is
authenticated and is the poll's owner; and fetching an id held by no poll
fails with the NotFound error. -/
theorem C8_getPoll_public_read (st : State) (caller : Option User) (p : Poll)
    (pid : String) (hWF : WF st) :
    (p ∈ st.polls →
      getPollById caller p.id st =
        { poll := some p, error := none, canEdit := some (canEditOf caller p) } ∧
      (canEditOf caller p = true ↔ ∃ u, caller = some u ∧ u.id = p.user_id)) ∧
    ((∀ q ∈ st.polls, q.id ≠ pid) →
      getPollById caller pid st =
        { poll := none, error := some "Poll not found.", canEdit := none }) := by
  constructor
  · intro hp
    constructor
    · unfold getPollById
      rw [findPollRow_eq_some st p hWF.1 hp]
    · cases caller with
      | none => simp [canEditOf]
      | some u => simp [canEditOf]
  · intro h
    unfold getPollById
    rw [findPollRow_eq_none st pid h]

/-- Claim C8 witness: on the sample store, the owner gets `canEdit` and an
anonymous caller still reads the poll, while a missing id is NotFound. -/
theorem C8_getPoll_public_read_witness :
    getPollById (some alice) pollOne.id st0 =
      { poll := some pollOne, error := none, canEdit := some (canEditOf (some alice) pollOne) } ∧
    canEditOf (some alice) pollOne = true ∧
    getPollById none pollOne.id st0 =
      { poll := some pollOne, error := none, canEdit := some (canEditOf none pollOne) } ∧
    canEditOf none pollOne = false ∧
    getPollById none "ghost" st0 =
      { poll := none, error := some "Poll not found.", canEdit := none } := by
  refine ⟨((C8_getPoll_public_read st0 (some alice) pollOne "ghost" (by decide)).1
      (by decide)).1, by decide,
    ((C8_getPoll_public_read st0 none pollOne "ghost" (by decide)).1 (by decide)).1, by decide,
    (C8_getPoll_public_read st0 none pollOne "ghost" (by decide)).2 (by decide)⟩

/-- Claim C6: under the store's vote-uniqueness invariant, an
authenticated caller who already has a vote on a stored poll receives the
already-voted Conflict error and no vote is inserted, while an anonymous
vote on a valid option always succeeds with `voter_id` absent — for any
state, including states already holding other anonymous votes on the same
poll. -/
theorem C6_duplicate_vote_and_anonymous (st : State) (u : User) (p : Poll)
    (i : Int) (nid : String) (hWF : WF st) (hp : p ∈ st.polls)
    (hi0 : 0 ≤ i) (hilt : i < (p.options.length : Int)) :
    ((∃ v ∈ st.votes, v.poll_id = p.id ∧ v.user_id = some u.id) →
      submitVote (some u) p.id i nid st =
        (some "You have already voted on this poll.", st)) ∧
    submitVote none p.id i nid st =
      (none, { st with votes := st.votes ++
        [{ id := nid, poll_id := p.id, user_id := none, option_index := i }] }) := by
  obtain ⟨hnd, hids, hpw⟩ := hWF
  have hcond : ¬(p.id = "" ∨ i < 0) := by
    rintro (h | h)
    · exact hids p hp h
    · omega
  have hble : ¬((p.options.length : Int) ≤ i) := not_le.mpr hilt
  constructor
  · rintro ⟨v, hv, hvp, hvu⟩
    simp only [submitVote, findPollRow_eq_some st p hnd hp,
      findUserVoteRow_eq_some st v p.id u.id hpw hv hvp hvu, hcond, hble,
      if_false, Option.isSome_some, if_true, ite_false, ite_true]
  · simp only [submitVote, findPollRow_eq_some st p hnd hp, hcond, hble,
      if_false, ite_false, Option.map_none', Bool.false_eq_true]

/-- Claim C6 witness: in the sample store where `bob` already voted on
`pollOne`, bob's second vote is the Conflict error and nothing changes;
an anonymous vote on the same poll — which already carries another
anonymous vote — succeeds with `user_id` absent. -/
theorem C6_duplicate_vote_and_anonymous_witness :
    submitVote (some bob) pollOne.id 1 "v9" stVotes =
      (some "You have already voted on this poll.", stVotes) ∧
    submitVote none pollOne.id 1 "v9" stVotes =
      (none, { stVotes with votes := stVotes.votes ++
        [{ id := "v9", poll_id := pollOne.id, user_id := none, option_index := 1 }] }) :=
  ⟨(C6_duplicate_vote_and_anonymous stVotes bob pollOne 1 "v9" (by decide) (by decide)
      (by decide) (by decide)).1 ⟨voteByBob, by decide, by decide, by decide⟩,
   (C6_duplicate_vote_and_anonymous stVotes bob pollOne 1 "v9" (by decide) (by decide)
      (by decide) (by decide)).2⟩

/-- Claim C5 counterexample: for a pollId absent from the store but a
negative optionIndex, `submitVote` fails with the generic InvalidInput
message, not with NotFound as the claim's second half demands for every
absent pollId. -/
theorem C5_counterexample :
    (∀ p ∈ st0.polls, p.id ≠ "ghost") ∧
    submitVote (some bob) "ghost" (-1) "v9" st0 = (some "Invalid vote data.", st0) := by
  exact ⟨by decide, by decide⟩

/-- Claim C5 as amended: for a stored poll, any optionIndex below zero or
at least the option count fails with an InvalidInput error (the generic
invalid-vote-data message below zero, the invalid-option message above
the bound) and persists nothing; a non-empty pollId matching no stored
poll fails with NotFound whenever optionIndex is non-negative (a negative
optionIndex takes the InvalidInput exit first). -/
theorem C5_invalid_index_and_missing_poll (st : State) (caller : Option User)
    (p : Poll) (i : Int) (pid : String) (nid : String) (hWF : WF st) :
    (p ∈ st.polls → i < 0 →
      submitVote caller p.id i nid st = (some "Invalid vote data.", st)) ∧
    (p ∈ st.polls → (p.options.length : Int) ≤ i →
      submitVote caller p.id i nid st = (some "Invalid option selected.", st)) ∧
    (pid ≠ "" → 0 ≤ i → (∀ q ∈ st.polls, q.id ≠ pid) →
      submitVote caller pid i nid st = (some "Poll not found.", st)) := by
  obtain ⟨hnd, hids, hpw⟩ := hWF
  refine ⟨fun hp hi => ?_, fun hp hi => ?_, fun hpid hi0 habs => ?_⟩
  · unfold submitVote
    rw [if_pos (Or.inr hi)]
  · have hcond : ¬(p.id = "" ∨ i < 0) := by
      rintro (h | h)
      · exact hids p hp h
      · have : (0 : Int) ≤ (p.options.length : Int) := Int.ofNat_nonneg _
        omega
    simp only [submitVote, hcond, findPollRow_eq_some st p hnd hp, hi,
      if_false, ite_true, ite_false]
  · have hcond : ¬(pid = "" ∨ i < 0) := by
      rintro (h | h)
      · exact hpid h
      · omega
    simp only [submitVote, hcond, findPollRow_eq_none st pid habs,
      if_false, ite_false]

/-- Claim C5 witness: on the sample store, a negative index and an
out-of-range index on `pollOne` both fail with InvalidInput messages, and
a valid index on an absent pollId fails with NotFound. -/
theorem C5_invalid_index_and_missing_poll_witness :
    submitVote (some bob) pollOne.id (-2) "v9" st0 = (some "Invalid vote data.", st0) ∧
    submitVote (some bob) pollOne.id 2 "v9" st0 = (some "Invalid option selected.", st0) ∧
    submitVote none "ghost" 0 "v9" st0 = (some "Poll not found.", st0) :=
  ⟨(C5_invalid_index_and_missing_poll st0 (some bob) pollOne (-2) "ghost" "v9"
      (by decide)).1 (by decide) (by decide),
   (C5_invalid_index_and_missing_poll st0 (some bob) pollOne 2 "ghost" "v9"
      (by decide)).2.1 (by decide) (by decide),
   (C5_invalid_index_and_missing_poll st0 none pollOne 0 "ghost" "v9"
      (by decide)).2.2 (by decide) (by decide) (by decide)⟩

/-- Claim C1 counterexample: `bob` is authenticated, is not `pollOne`'s
owner and is not an admin, yet the non-admin `deletePoll` returns success
(a null error) instead of a Forbidden error — the ownership-filtered
delete silently matches zero rows and the poll survives. -/
theorem C1_counterexample :
    pollOne ∈ st0.polls ∧ pollOne.user_id ≠ bob.id ∧ isUserAdmin bob = false ∧
    deletePoll (some bob) pollOne.id st0 = (none, st0) := by
  exact ⟨by decide, by decide, by decide, by decide⟩

/-- Claim C1 as amended: for a stored poll and an authenticated non-owner
caller, `updatePoll` (with input passing validation) fails with the
Forbidden you-can-only-edit-your-own-polls error and leaves the store
unchanged, while the non-admin `deletePoll` also leaves the store
unchanged but reports success (a null error) rather than Forbidden. -/
theorem C1_non_owner_mutations (st : State) (u : User) (p : Poll)
    (question : String) (rawOptions : List String) (hWF : WF st)
    (hp : p ∈ st.polls) (hne : p.user_id ≠ u.id)
    (hval : validatePoll question (filterBoolean rawOptions) = none) :
    updatePoll (some u) p.id question rawOptions st =
      (some "You can only edit your own polls.", st) ∧
    deletePoll (some u) p.id st = (none, st) := by
  obtain ⟨hnd, hids, hpw⟩ := hWF
  constructor
  · simp only [updatePoll, hval, findPollRow_eq_some st p hnd hp, ne_eq, hne,
      not_false_eq_true, ite_true, if_true]
  · show (none, { st with
      polls := st.polls.filter (fun q => !(q.id == p.id && q.user_id == u.id)) }) = (none, st)
    have hfil : st.polls.filter (fun q => !(q.id == p.id && q.user_id == u.id)) = st.polls := by
      refine List.filter_eq_self.mpr (fun q hq => ?_)
      by_cases hid : q.id = p.id
      · have : q = p := List.inj_on_of_nodup_map hnd hq hp hid
        subst this
        simp [hne]
      · simp [hid]
    rw [hfil]

/-- Claim C1 witness: on the sample store, non-owner `bob` gets the
Forbidden error from `updatePoll` on `pollOne` and a silent no-op success
from `deletePoll`. -/
theorem C1_non_owner_mutations_witness :
    updatePoll (some bob) pollOne.id "New question?" ["X", "Y"] st0 =
      (some "You can only edit your own polls.", st0) ∧
    deletePoll (some bob) pollOne.id st0 = (none, st0) :=
  C1_non_owner_mutations st0 bob pollOne "New question?" ["X", "Y"]
    (by decide) (by decide) (by decide) (by decide)

/-- An option string of raw length 201 whose trimmed length is 200. -/
def paddedOption : String := String.mk (' ' :: List.replicate 200 'b')

/-- Claim C3 counterexample: an option whose trimmed length is 200 (within
the claimed 1-200 bound) but whose raw length is 201 is rejected by
`createPoll`, because the source checks `option.length > 200` on the
untrimmed string — so a poll the claim says must succeed is refused. -/
theorem C3_counterexample :
    (jsTrim paddedOption).length = 200 ∧ paddedOption.length = 201 ∧
    (jsTrim "Q?").length = 2 ∧
    createPoll (some alice) "Q?" ["A", paddedOption] "p9" 5 st0 =
      (some "Options must be less than 200 characters.", st0) := by
  exact ⟨by decide, by decide, by decide, by decide⟩

/-- Claim C3 as amended: for every authenticated caller, every question
nonempty after trimming whose raw length is at most 500, and 2 to 10
options each nonempty after trimming with raw length at most 200,
`createPoll` succeeds and appends exactly one poll whose question and
options are the trimmed inputs, the options in their original order. -/
theorem C3_valid_create_persists_trimmed (u : User) (question : String)
    (options : List String) (newId : String) (now : Nat) (st : State)
    (hq1 : 1 ≤ (jsTrim question).length) (hq2 : question.length ≤ 500)
    (hc1 : 2 ≤ options.length) (hc2 : options.length ≤ 10)
    (ho : ∀ o ∈ options, 1 ≤ (jsTrim o).length ∧ o.length ≤ 200) :
    createPoll (some u) question options newId now st =
      (none, { st with polls := st.polls ++
        [{ id := newId, user_id := u.id, question := jsTrim question,
           options := options.map (fun o => jsTrim o), created_at := now }] }) := by
  have hfb : filterBoolean options = options :=
    filterBoolean_eq_self options (fun o ho' => (ho o ho').1)
  simp only [createPoll, hfb, validatePoll_eq_none question options hq1 hq2 hc1 hc2 ho]

/-- Claim C3 witness: a concrete valid create stores the trimmed question
and options in order. -/
theorem C3_valid_create_persists_trimmed_witness :
    createPoll (some alice) " Snack? " [" Tea", "Coffee "] "p9" 5 st0 =
      (none, { st0 with polls := st0.polls ++
        [{ id := "p9", user_id := "alice", question := jsTrim " Snack? ",
           options := [" Tea", "Coffee "].map (fun o => jsTrim o), created_at := 5 }] }) :=
  C3_valid_create_persists_trimmed alice " Snack? " [" Tea", "Coffee "] "p9" 5 st0
    (by decide) (by decide) (by decide) (by decide) (by decide)

/-- Any of the length/count violations makes the validation prefix report
some error. -/
theorem validatePoll_isSome_of (question : String) (options : List String)
    (h : question.length > 500 ∨ options.length < 2 ∨ options.length > 10 ∨
      ∃ o ∈ options, o.length > 200) :
    (validatePoll question options).isSome = true := by
  unfold validatePoll
  by_cases c1 : question = "" ∨ (jsTrim question).length = 0
  · rw [if_pos c1]; rfl
  rw [if_neg c1]
  by_cases c2 : question.length > 500
  · rw [if_pos c2]; rfl
  rw [if_neg c2]
  by_cases c3 : options.length < 2
  · rw [if_pos c3]; rfl
  rw [if_neg c3]
  by_cases c4 : options.length > 10
  · rw [if_pos c4]; rfl
  rw [if_neg c4]
  rcases h with h | h | h | ⟨o, ho, hlen⟩
  · omega
  · omega
  · omega
  · exact validateOptions_isSome_of_long options o ho hlen

/-- Eleven submitted options, one of them the empty string. -/
def elevenOptions : List String :=
  ["A", "B", "C", "D", "E", "F", "G", "H", "I", "J", ""]

/-- Claim C4 counterexample: a submitted options list of 11 entries — more
than 10, so the claim demands an InvalidInput failure — is accepted by
`createPoll`, because the empty entry is dropped before the count check. -/
theorem C4_counterexample :
    elevenOptions.length = 11 ∧
    (createPoll (some alice) "Q?" elevenOptions "p9" 5 st0).1 = none := by
  exact ⟨by decide, by decide⟩

/-- Claim C4 as amended: with the entry counts measured after dropping
empty-string entries, every over-long question, out-of-range option
count, or over-long option makes both `createPoll` and `updatePoll`
return exactly the validation error (which is present) with the store
untouched. -/
theorem C4_invalid_input_rejected (caller : Option User) (pollId : String)
    (question : String) (rawOptions : List String) (newId : String) (now : Nat)
    (st : State)
    (h : question.length > 500 ∨ (filterBoolean rawOptions).length < 2 ∨
      (filterBoolean rawOptions).length > 10 ∨ ∃ o ∈ rawOptions, o.length > 200) :
    (validatePoll question (filterBoolean rawOptions)).isSome = true ∧
    createPoll caller question rawOptions newId now st =
      (validatePoll question (filterBoolean rawOptions), st) ∧
    updatePoll caller pollId question rawOptions st =
      (validatePoll question (filterBoolean rawOptions), st) := by
  have hsome : (validatePoll question (filterBoolean rawOptions)).isSome = true := by
    refine validatePoll_isSome_of question (filterBoolean rawOptions) ?_
    rcases h with h | h | h | ⟨o, ho, hlen⟩
    · exact Or.inl h
    · exact Or.inr (Or.inl h)
    · exact Or.inr (Or.inr (Or.inl h))
    · refine Or.inr (Or.inr (Or.inr ⟨o, List.mem_filter.mpr ⟨ho, ?_⟩, hlen⟩))
      have : o ≠ "" := by
        intro he
        subst he
        simp at hlen
      simpa using this
  obtain ⟨e, he⟩ := Option.isSome_iff_exists.mp hsome
  rw [he]
  exact ⟨rfl, createPoll_validation_error caller question rawOptions newId now st e he,
    updatePoll_validation_error caller pollId question rawOptions st e he⟩

/-- Claim C4 witness: a single-option submission is rejected by both
operations with the at-least-two-options error and no state change. -/
theorem C4_invalid_input_rejected_witness :
    (validatePoll "Q?" (filterBoolean ["A"])).isSome = true ∧
    createPoll (some alice) "Q?" ["A"] "p9" 5 st0 =
      (validatePoll "Q?" (filterBoolean ["A"]), st0) ∧
    updatePoll (some alice) "p1" "Q?" ["A"] st0 =
      (validatePoll "Q?" (filterBoolean ["A"]), st0) :=
  C4_invalid_input_rejected (some alice) "p1" "Q?" ["A"] "p9" 5 st0
    (by decide)
